import Mathlib

/-!
Verification of the cmd-agent-select-logic routing core (agentgen repository).

Shallow embedding conventions:
* Python floats are modelled as exact rationals (`ℚ`); every constant in the
  source is a decimal literal and every claim is a threshold comparison, not a
  float-rounding property.
* Python `dict`s keyed by strings are modelled as association lists; the
  `OrderedDict`s of the cache keep their insertion order as list order
  (front = first inserted / least recently used, back = most recent), matching
  CPython semantics: assignment to an existing key keeps its position,
  `move_to_end` moves it to the back, `popitem(last=False)` pops the front.
* Wall-clock time (`time.time()`) is an explicit `now : ℚ` argument; latency
  bookkeeping (`analysis_time_ms`, `avg_calc_time_ms`, the performance
  monitor) is not modelled, as no claim depends on it.
* Fallible Python code (raising) is modelled with `Except`.
* Text processing is done on `List Char` with structural recursion so that the
  model is executable by the kernel.
-/

namespace AgentSelect

/-! ## Python string helpers -/

/-- One step of Python `str.split()` on a character list: accumulate the
current word (reversed in `acc`), emitting it at whitespace boundaries. -/
def splitWordsAux : List Char → List Char → List (List Char)
  | [], acc => if acc = [] then [] else [acc.reverse]
  | c :: cs, acc =>
      if c.isWhitespace then
        (if acc = [] then splitWordsAux cs [] else acc.reverse :: splitWordsAux cs [])
      else splitWordsAux cs (c :: acc)

/-- Python `str.split()` : split on whitespace runs, dropping empty pieces. -/
def splitWords (l : List Char) : List (List Char) :=
  splitWordsAux l []

/-- Python `str.lower()` (ASCII case folding suffices for the source's data). -/
def lowerChars (l : List Char) : List Char :=
  l.map Char.toLower

/-- Whether `pat` occurs as a contiguous sublist (Python `pat in s`). -/
def containsSub (l pat : List Char) : Bool :=
  match l with
  | [] => decide (pat = [])
  | _ :: tl => pat.isPrefixOf l || containsSub tl pat

/-- Python `str.strip()` on a character list. -/
def stripChars (l : List Char) : List Char :=
  (l.dropWhile Char.isWhitespace).reverse.dropWhile Char.isWhitespace |>.reverse

/-- Python `' '.join(words)`. -/
def joinWithSpace : List (List Char) → List Char
  | [] => []
  | [w] => w
  | w :: ws => w ++ ' ' :: joinWithSpace ws

/-! ## Core data model (src/core/models.py) -/

/-- Model of `RoutingAction` enum (models.py). -/
inductive RoutingAction
  | DIRECT_AGENT
  | ORCHESTRATION
  | ESCALATE
deriving DecidableEq, Repr

/-- The dynamically typed value stored in `RoutingDecision.action`: the source
stores sometimes a `RoutingAction` enum member (error_handling.py, router.py)
and sometimes a plain string (`'ESCALATE'` in `_create_validation_error_decision`,
`escalation_decision.action.value` in the phase-2 pipeline). -/
inductive ActionVal
  | enumV (a : RoutingAction)
  | strV (s : String)
deriving DecidableEq, Repr

/-- Model of `RoutingDecision` dataclass (models.py). Exactly the nine declared fields;
the phase-2 pipeline's dynamically added attributes (`escalation_score`,
`context_package`, ...) are not dataclass fields — which is precisely why
`_create_validation_error_decision` raises `TypeError` (see
`createValidationErrorDecision` below). -/
structure RoutingDecision where
  action : ActionVal
  selected_agent : Option String
  orchestration_type : Option String
  confidence : ℚ
  reasoning : String
  analysis_time_ms : ℚ
  cache_hit : Bool := false
  complexity_score : ℚ := 0
  domain_count : ℕ := 0
deriving DecidableEq, Repr

/-! ## Adaptive weights (confidence_engine.py, class AdaptiveWeights) -/

/-- Model of `AdaptiveWeights` dataclass with its default field values. -/
structure AdaptiveWeights where
  pattern_weight : ℚ := 4/10
  historical_weight : ℚ := 3/10
  context_weight : ℚ := 2/10
  resource_weight : ℚ := 1/10
  learning_rate : ℚ := 1/100
  decay : ℚ := 1/1000
  iteration : ℕ := 0
deriving DecidableEq, Repr

/-- The four feature values passed to `update_weights` (the `features` dict;
the source reads them with `.get(_, 0)` and the only caller supplies all
four keys). -/
structure FeatureValues where
  pattern_match : ℚ
  historical_success : ℚ
  context_completeness : ℚ
  resource_availability : ℚ
deriving DecidableEq, Repr

/-- Model of `learning_rate / (1 + decay * iteration)` (update_weights, line 47). -/
def currentLearningRate (w : AdaptiveWeights) : ℚ :=
  w.learning_rate / (1 + w.decay * (w.iteration : ℚ))

/-- The pattern weight after the SGD step, before normalization. -/
def rawPatternWeight (w : AdaptiveWeights) (e : ℚ) (f : FeatureValues) : ℚ :=
  w.pattern_weight - currentLearningRate w * (e * f.pattern_match)

/-- The historical weight after the SGD step, before normalization. -/
def rawHistoricalWeight (w : AdaptiveWeights) (e : ℚ) (f : FeatureValues) : ℚ :=
  w.historical_weight - currentLearningRate w * (e * f.historical_success)

/-- The context weight after the SGD step, before normalization. -/
def rawContextWeight (w : AdaptiveWeights) (e : ℚ) (f : FeatureValues) : ℚ :=
  w.context_weight - currentLearningRate w * (e * f.context_completeness)

/-- The resource weight after the SGD step, before normalization. -/
def rawResourceWeight (w : AdaptiveWeights) (e : ℚ) (f : FeatureValues) : ℚ :=
  w.resource_weight - currentLearningRate w * (e * f.resource_availability)

/-- Model of `total = pattern + historical + context + resource` after the SGD step
(update_weights, line 62). -/
def preNormTotal (w : AdaptiveWeights) (e : ℚ) (f : FeatureValues) : ℚ :=
  rawPatternWeight w e f + rawHistoricalWeight w e f +
    rawContextWeight w e f + rawResourceWeight w e f

/-- Model of `AdaptiveWeights.update_weights`: one SGD step followed by normalization,
guarded by `if total > 0`, then `iteration += 1`. -/
def updateWeights (w : AdaptiveWeights) (e : ℚ) (f : FeatureValues) : AdaptiveWeights :=
  let total := preNormTotal w e f
  if 0 < total then
    { w with
      pattern_weight := rawPatternWeight w e f / total
      historical_weight := rawHistoricalWeight w e f / total
      context_weight := rawContextWeight w e f / total
      resource_weight := rawResourceWeight w e f / total
      iteration := w.iteration + 1 }
  else
    { w with
      pattern_weight := rawPatternWeight w e f
      historical_weight := rawHistoricalWeight w e f
      context_weight := rawContextWeight w e f
      resource_weight := rawResourceWeight w e f
      iteration := w.iteration + 1 }

/-- Sum of the four adaptive weights. -/
def weightSum (w : AdaptiveWeights) : ℚ :=
  w.pattern_weight + w.historical_weight + w.context_weight + w.resource_weight

/-! ## Confidence components and domain analysis
(confidence_engine.py, domain_detector.py) -/

/-- Model of `ConfidenceComponents` dataclass. -/
structure ConfidenceComponents where
  pattern_match : ℚ
  historical_success : ℚ
  context_completeness : ℚ
  resource_availability : ℚ
  total_confidence : ℚ
deriving DecidableEq, Repr

/-- One element of the `domains` list returned by
`DomainDetectionEngine.detect_domains` (a dict with keys `domain`,
`confidence`, `complexity_bias`, `preferred_agents`). -/
structure DomainSignalD where
  domain : String
  confidence : ℚ
  complexity_bias : ℚ
  preferred_agents : List String
deriving DecidableEq, Repr

/-- The dict returned by `detect_domains`: `domains` (sorted by descending
confidence by the producer), `domain_count`, `total_confidence`,
`primary_domain`. The `domain_count` field is kept separate from
`domains.length` because consumers read the dict fields independently
(`analysis_time_ms` is not modelled). -/
structure DomainAnalysisD where
  domains : List DomainSignalD
  domain_count : ℕ
  total_confidence : ℚ
  primary_domain : Option String
deriving DecidableEq, Repr

/-! ## Association-list model of Python dict / OrderedDict -/

/-- Dict lookup. -/
def alistFind {α β : Type} [DecidableEq α] (k : α) : List (α × β) → Option β
  | [] => none
  | (k', v) :: tl => if k' = k then some v else alistFind k tl

/-- Dict assignment `d[k] = v`: replaces in place when the key is present
(CPython keeps the insertion position), appends at the back otherwise. -/
def alistAssign {α β : Type} [DecidableEq α] (k : α) (v : β) : List (α × β) → List (α × β)
  | [] => [(k, v)]
  | (k', v') :: tl => if k' = k then (k, v) :: tl else (k', v') :: alistAssign k v tl

/-- Dict deletion `del d[k]`. -/
def alistRemove {α β : Type} [DecidableEq α] (k : α) : List (α × β) → List (α × β)
  | [] => []
  | (k', v') :: tl => if k' = k then tl else (k', v') :: alistRemove k tl

/-! ## 3-tier hierarchical cache (confidence_engine.py, class L1ConfidenceCache) -/

/-- A cache key. The source builds `f"{task}:{len(domains)}:{len(agents)}"`
and md5-hashes it (`_generate_key`); the hash is modelled as injective by
keeping the triple itself. -/
abbrev CacheKey := List Char × ℕ × ℕ

/-- Model of `CacheEntry` dataclass. -/
structure CacheEntry where
  confidence : ConfidenceComponents
  timestamp : ℚ
  access_count : ℕ
  layer : String
deriving DecidableEq, Repr

/-- Per-tier `stats` dict. -/
structure CacheStats where
  hits : ℕ := 0
  misses : ℕ := 0
  evictions : ℕ := 0
  invalidations : ℕ := 0
deriving DecidableEq, Repr

/-- One cache tier: an `OrderedDict` plus its stats dict. -/
structure TierState where
  entries : List (CacheKey × CacheEntry) := []
  stats : CacheStats := {}
deriving DecidableEq, Repr

/-- The `while len(cache) >= max_entries: cache.popitem(last=False)` eviction
loop of `_l1_put`/`_l2_put`/`_l3_put`; returns the surviving entries and the
number of evictions performed. -/
def evictToCapacity (maxEntries : ℕ) :
    List (CacheKey × CacheEntry) → List (CacheKey × CacheEntry) × ℕ
  | [] => ([], 0)
  | x :: tl =>
      if maxEntries ≤ (x :: tl).length then
        let (l, n) := evictToCapacity maxEntries tl
        (l, n + 1)
      else (x :: tl, 0)

/-- Model of `_l1_get` / `_l2_get` / `_l3_get`: the three methods are textually
identical up to the tier's fields, so they are modelled by one parametric
function. A valid hit moves the entry to the back (LRU `move_to_end`), bumps
its access count and the tier's hit counter; an expired entry is deleted and
counted as an invalidation. -/
def tierGet (ttl now : ℚ) (k : CacheKey) (t : TierState) :
    Option ConfidenceComponents × TierState :=
  match alistFind k t.entries with
  | some e =>
      if ¬(now - e.timestamp > ttl) then
        (some e.confidence,
         { entries := alistRemove k t.entries ++ [(k, { e with access_count := e.access_count + 1 })],
           stats := { t.stats with hits := t.stats.hits + 1 } })
      else
        (none,
         { entries := alistRemove k t.entries,
           stats := { t.stats with invalidations := t.stats.invalidations + 1 } })
  | none => (none, t)

/-- Model of `_l1_put` / `_l2_put` / `_l3_put`, parametric in the tier: evict from the
front while at capacity, then store the entry with a fresh timestamp and
access count 1. -/
def tierPut (maxEntries : ℕ) (layer : String) (now : ℚ) (k : CacheKey)
    (c : ConfidenceComponents) (t : TierState) : TierState :=
  let (l, n) := evictToCapacity maxEntries t.entries
  { entries := alistAssign k ⟨c, now, 1, layer⟩ l
    stats := { t.stats with evictions := t.stats.evictions + n } }

/-- Model of `L1ConfidenceCache.__init__` state: three tiers with their capacities and
TTLs (L1: 1h/1000, L2: 30min/500, L3: 5min/200). -/
structure L1ConfidenceCache where
  max_entries : ℕ := 1000
  ttl_seconds : ℚ := 3600
  l1 : TierState := {}
  l2_max_entries : ℕ := 500
  l2_ttl_seconds : ℚ := 1800
  l2 : TierState := {}
  l3_max_entries : ℕ := 200
  l3_ttl_seconds : ℚ := 300
  l3 : TierState := {}
deriving DecidableEq, Repr

/-- Model of `_generate_key` (see `CacheKey`). -/
def generateKey (task : List Char) (da : DomainAnalysisD) (agents : List String) : CacheKey :=
  (task, da.domains.length, agents.length)

/-- Model of `L1ConfidenceCache.get`: hierarchical L1 → L2 → L3 lookup; a hit in a
lower tier is promoted into every higher tier (`_l1_put` / `_l2_put` on the
promotion paths); a global miss bumps all three miss counters. -/
def cacheGet (now : ℚ) (task : List Char) (da : DomainAnalysisD) (agents : List String)
    (c : L1ConfidenceCache) : Option ConfidenceComponents × L1ConfidenceCache :=
  let k := generateKey task da agents
  let (r1, t1) := tierGet c.ttl_seconds now k c.l1
  match r1 with
  | some v => (some v, { c with l1 := t1 })
  | none =>
    let (r2, t2) := tierGet c.l2_ttl_seconds now k c.l2
    match r2 with
    | some v => (some v, { c with l1 := tierPut c.max_entries "L1" now k v t1, l2 := t2 })
    | none =>
      let (r3, t3) := tierGet c.l3_ttl_seconds now k c.l3
      match r3 with
      | some v =>
          (some v,
           { c with
             l1 := tierPut c.max_entries "L1" now k v t1
             l2 := tierPut c.l2_max_entries "L2" now k v t2
             l3 := t3 })
      | none =>
          (none,
           { c with
             l1 := { t1 with stats := { t1.stats with misses := t1.stats.misses + 1 } }
             l2 := { t2 with stats := { t2.stats with misses := t2.stats.misses + 1 } }
             l3 := { t3 with stats := { t3.stats with misses := t3.stats.misses + 1 } } })

/-- Model of `L1ConfidenceCache.put`: write-through into all three tiers. -/
def cachePut (now : ℚ) (task : List Char) (da : DomainAnalysisD) (agents : List String)
    (conf : ConfidenceComponents) (c : L1ConfidenceCache) : L1ConfidenceCache :=
  let k := generateKey task da agents
  { c with
    l1 := tierPut c.max_entries "L1" now k conf c.l1
    l2 := tierPut c.l2_max_entries "L2" now k conf c.l2
    l3 := tierPut c.l3_max_entries "L3" now k conf c.l3 }

/-! ## Confidence engine (confidence_engine.py, class ConfidenceEngine) -/

/-- The `_extract_agent_keywords` lookup table (unknown agents map to the
empty set). -/
def extractAgentKeywords (agent : String) : List (List Char) :=
  if agent = "@analyze-screenshot" then
    ["screenshot".data, "image".data, "visual".data, "analyze".data]
  else if agent = "@debug-issue" then
    ["debug".data, "fix".data, "error".data, "issue".data, "bug".data]
  else if agent = "@test-automation" then
    ["test".data, "testing".data, "qa".data, "validation".data, "automation".data]
  else if agent = "@build-frontend" then
    ["frontend".data, "ui".data, "component".data, "react".data, "vue".data, "build".data]
  else if agent = "@build-backend" then
    ["backend".data, "api".data, "server".data, "database".data, "service".data, "build".data]
  else if agent = "@security-auditor" then
    ["security".data, "audit".data, "vulnerability".data, "secure".data]
  else if agent = "@performance-engineer" then
    ["performance".data, "optimize".data, "speed".data, "bottleneck".data]
  else if agent = "@documentation-expert" then
    ["document".data, "docs".data, "guide".data, "readme".data, "write".data]
  else if agent = "@deploy-application" then
    ["deploy".data, "deployment".data, "infrastructure".data, "cloud".data]
  else if agent = "@architect-specialist" then
    ["architecture".data, "design".data, "system".data, "scalability".data]
  else []

/-- Model of `calculate_pattern_confidence`: best normalized token overlap between the
task's (distinct) lowercase tokens and any available agent's keyword set,
capped at 1. -/
def calculatePatternConfidence (task : List Char) (agents : List String) : ℚ :=
  let taskTokens := (splitWords (lowerChars task)).dedup
  agents.foldl
    (fun best a =>
      let kw := extractAgentKeywords a
      let overlap := (taskTokens.filter (fun t => t ∈ kw)).length
      max best (min ((overlap : ℚ) / ((max taskTokens.length 1 : ℕ) : ℚ)) 1))
    0

/-- The task signature `f"{word count}:{domain_count}"` used by the
historical-success table, modelled injectively as the pair itself. -/
def taskSignature (task : List Char) (dc : ℕ) : ℕ × ℕ :=
  ((splitWords task).length, dc)

/-- Model of `calculate_historical_confidence`: stored success rate, default 0.5. -/
def calculateHistoricalConfidence (sig : ℕ × ℕ) (db : List ((ℕ × ℕ) × ℚ)) : ℚ :=
  (alistFind sig db).getD (1/2)

/-- Model of `calculate_context_confidence`: 0.3 with no domains, otherwise primary
confidence plus 0.3 × the gap to the second domain, capped at 1. -/
def calculateContextConfidence (da : DomainAnalysisD) : ℚ :=
  match da.domains with
  | [] => 3/10
  | d0 :: rest =>
      let primary := d0.confidence
      let second := match rest with
        | [] => 0
        | d1 :: _ => d1.confidence
      min (primary + (primary - second) * (3/10)) 1

/-- Model of `calculate_resource_confidence`: step function of the estimated tokens. -/
def calculateResourceConfidence (estimatedTokens : ℤ) : ℚ :=
  if estimatedTokens < 5000 then 9/10
  else if estimatedTokens < 15000 then 7/10
  else 1/2

/-- Model of `_estimate_tokens`: `int(word_count * 1.3 * (1 + domain_count * 0.5) * 200)`
(the value is nonnegative, so Python's truncation is the floor). -/
def estimateTokens (task : List Char) (dc : ℕ) : ℤ :=
  ⌊(((splitWords task).length : ℚ) * (13/10) * (1 + (dc : ℚ) * (1/2)) * 200)⌋

/-- The `performance_stats` dict (`avg_calc_time_ms` is timing-only and not
modelled). -/
structure PerformanceStats where
  calculations : ℕ := 0
  cache_hits : ℕ := 0
deriving DecidableEq, Repr

/-- Model of `ConfidenceEngine.__init__` state. The `learning_stats` dict is pure
telemetry (error history, weight-evolution samples) that no modelled
behaviour reads back; it is omitted. -/
structure ConfidenceEngine where
  cache : L1ConfidenceCache := {}
  historical_success_db : List ((ℕ × ℕ) × ℚ) := []
  performance_stats : PerformanceStats := {}
  adaptive_weights : AdaptiveWeights := {}
deriving DecidableEq, Repr

/-- The pure cache-miss computation inside `calculate_routing_confidence`
(lines 479–508): the four components and their weighted total under the
given adaptive weights and historical-success table. -/
def computeConfidenceComponents (task : List Char) (da : DomainAnalysisD)
    (agents : List String) (w : AdaptiveWeights) (db : List ((ℕ × ℕ) × ℚ)) :
    ConfidenceComponents :=
  let pattern := calculatePatternConfidence task agents
  let historical := calculateHistoricalConfidence (taskSignature task da.domain_count) db
  let context := calculateContextConfidence da
  let resource := calculateResourceConfidence (estimateTokens task da.domain_count)
  { pattern_match := pattern
    historical_success := historical
    context_completeness := context
    resource_availability := resource
    total_confidence :=
      pattern * w.pattern_weight + historical * w.historical_weight +
        context * w.context_weight + resource * w.resource_weight }

/-- Model of `ConfidenceEngine.calculate_routing_confidence`: serve from the 3-tier
cache when possible (bumping the cache-hit counter), otherwise compute the
components, write them through the cache and bump the calculation counter. -/
def calculateRoutingConfidence (e : ConfidenceEngine) (task : List Char)
    (da : DomainAnalysisD) (agents : List String) (now : ℚ) :
    ConfidenceComponents × ConfidenceEngine :=
  let (hit, cache1) := cacheGet now task da agents e.cache
  match hit with
  | some v =>
      (v, { e with
            cache := cache1
            performance_stats :=
              { e.performance_stats with cache_hits := e.performance_stats.cache_hits + 1 } })
  | none =>
      let comps := computeConfidenceComponents task da agents e.adaptive_weights
        e.historical_success_db
      (comps,
       { e with
         cache := cachePut now task da agents comps cache1
         performance_stats :=
           { e.performance_stats with calculations := e.performance_stats.calculations + 1 } })

/-- Model of `ConfidenceEngine.update_historical_success`: exponential moving average
`0.8 * old + 0.2 * outcome`. -/
def updateHistoricalSuccess (e : ConfidenceEngine) (sig : ℕ × ℕ) (success : Bool) :
    ConfidenceEngine :=
  let currentRate := (alistFind sig e.historical_success_db).getD (1/2)
  let newRate := currentRate * (8/10) + (if success then (1 : ℚ) else 0) * (2/10)
  { e with historical_success_db := alistAssign sig newRate e.historical_success_db }

/-- Model of `ConfidenceEngine.learn_from_outcome`: the only write path into the
long-lived learning state (adaptive weights and historical-success table);
its telemetry updates (`learning_stats`) are omitted. -/
def learnFromOutcome (e : ConfidenceEngine) (task : List Char) (da : DomainAnalysisD)
    (agents : List String) (actualSuccess : Bool) (predictedConfidence : ℚ) :
    ConfidenceEngine :=
  let target : ℚ := if actualSuccess then 1 else 0
  let predictionError := target - predictedConfidence
  let features : FeatureValues :=
    { pattern_match := calculatePatternConfidence task agents
      historical_success :=
        calculateHistoricalConfidence (taskSignature task da.domain_count)
          e.historical_success_db
      context_completeness := calculateContextConfidence da
      resource_availability :=
        calculateResourceConfidence (estimateTokens task da.domain_count) }
  let e1 := { e with
    adaptive_weights := updateWeights e.adaptive_weights predictionError features }
  updateHistoricalSuccess e1 (taskSignature task da.domain_count) actualSuccess

/-! ## Escalation engine (src/routing/escalation_engine.py) -/

/-- Model of `EscalationAction` enum. -/
inductive EscalationAction
  | DIRECT_AGENT_ROUTING
  | ORCHESTRATION_ROUTING
  | ESCALATE_TO_ORGANIZER
deriving DecidableEq, Repr

/-- The `.value` string of an `EscalationAction` member. -/
def escalationActionValue : EscalationAction → String
  | .DIRECT_AGENT_ROUTING => "DIRECT_AGENT_ROUTING"
  | .ORCHESTRATION_ROUTING => "ORCHESTRATION_ROUTING"
  | .ESCALATE_TO_ORGANIZER => "ESCALATE_TO_ORGANIZER"

/-- Model of `EscalationTriggers` dataclass: the six boolean triggers. In the source
they are computed by `analyze_escalation_triggers` from keyword/regex scans
over the task text; the model passes the computed record as an explicit
input and every theorem quantifies over all trigger valuations, so the
theorems cover whatever valuation the scans produce. -/
structure EscalationTriggers where
  low_confidence : Bool
  high_complexity : Bool
  multi_domain : Bool
  enterprise_scope : Bool
  architectural_decisions : Bool
  ambiguous_requirements : Bool
deriving DecidableEq, Repr

/-- The `confidence_analysis` dict handed to the escalation engine by the
phase-2 pipeline (all five keys are always present there, so the `.get`
defaults of the source never fire). -/
structure ConfidenceAnalysisDict where
  total_confidence : ℚ
  pattern_match : ℚ
  historical_success : ℚ
  context_completeness : ℚ
  resource_availability : ℚ
deriving DecidableEq, Repr

/-- The `task_analysis` dict handed to the escalation engine by the phase-2
pipeline (`complexity_score` and `complexity_level`). -/
structure TaskAnalysisDict where
  complexity_score : ℚ
  complexity_level : String
deriving DecidableEq, Repr

/-- Model of `_assess_resource_constraints` (static content). -/
structure ResourceConstraints where
  token_usage_high : Bool := false
  system_load_high : Bool := false
  concurrent_operations : ℕ := 0
  resource_availability : String := "normal"
deriving DecidableEq, Repr

/-- Model of `_estimate_performance_needs` result. -/
structure PerformanceNeeds where
  estimated_duration_minutes : ℤ
  estimated_token_usage : ℤ
  requires_parallel_processing : Bool
  requires_specialized_agents : Bool
deriving DecidableEq, Repr

/-- Model of `_estimate_performance_needs` (`int()` truncation modelled as the floor;
the complexity score is nonnegative in every call). -/
def estimatePerformanceNeeds (ta : TaskAnalysisDict) : PerformanceNeeds :=
  { estimated_duration_minutes := ⌊ta.complexity_score * 30⌋
    estimated_token_usage := ⌊ta.complexity_score * 20000⌋
    requires_parallel_processing := decide (ta.complexity_score > 7/10)
    requires_specialized_agents := decide (ta.complexity_score > 6/10) }

/-- The `routing_analysis` sub-dict of the context package. -/
structure RoutingAnalysisPkg where
  complexity_score : ℚ
  complexity_level : String
  domains_detected : List DomainSignalD
  primary_domain : Option String
  domain_count : ℕ
  confidence_breakdown : ConfidenceAnalysisDict
  escalation_triggers : List String
deriving DecidableEq, Repr

/-- The `system_context` sub-dict of the context package. -/
structure SystemContextPkg where
  available_agents : List String
  agent_count : ℕ
  resource_constraints : ResourceConstraints
  performance_requirements : PerformanceNeeds
deriving DecidableEq, Repr

/-- The `strategic_requirements` sub-dict of the context package. -/
structure StrategicRequirements where
  requires_enterprise_coordination : Bool
  requires_architectural_design : Bool
  requires_multi_domain_expertise : Bool
  complexity_management_needed : Bool
deriving DecidableEq, Repr

/-- The context package built by
`OrganizeContextPackage.create_context_package`. -/
structure ContextPackage where
  original_request : List Char
  routing_analysis : RoutingAnalysisPkg
  system_context : SystemContextPkg
  strategic_requirements : StrategicRequirements
  expected_deliverable : String
  escalation_timestamp : ℚ
  escalation_reason : String
deriving DecidableEq, Repr

/-- Model of `_extract_trigger_names`: names of the active triggers, in source
order. -/
def extractTriggerNames (t : EscalationTriggers) : List String :=
  (if t.low_confidence then ["low_confidence"] else []) ++
  (if t.high_complexity then ["high_complexity"] else []) ++
  (if t.multi_domain then ["multi_domain"] else []) ++
  (if t.enterprise_scope then ["enterprise_scope"] else []) ++
  (if t.architectural_decisions then ["architectural_decisions"] else []) ++
  (if t.ambiguous_requirements then ["ambiguous_requirements"] else [])

/-- Model of `_generate_escalation_reason`: human-readable reason from the active
triggers, in source order. -/
def generateEscalationReason (t : EscalationTriggers) : String :=
  "Strategic analysis required due to: " ++
    String.intercalate ", "
      ((if t.enterprise_scope then ["enterprise-scale requirements"] else []) ++
       (if t.architectural_decisions then ["architectural decision-making needed"] else []) ++
       (if t.high_complexity then ["high complexity requiring strategic approach"] else []) ++
       (if t.multi_domain then ["multi-domain coordination required"] else []) ++
       (if t.low_confidence then ["low confidence in automated routing"] else []) ++
       (if t.ambiguous_requirements then ["ambiguous requirements requiring clarification"] else []))

/-- Model of `OrganizeContextPackage.create_context_package`. -/
def createContextPackage (task : List Char) (ta : TaskAnalysisDict)
    (da : DomainAnalysisD) (conf : ConfidenceAnalysisDict) (agents : List String)
    (t : EscalationTriggers) (now : ℚ) : ContextPackage :=
  { original_request := task
    routing_analysis :=
      { complexity_score := ta.complexity_score
        complexity_level := ta.complexity_level
        domains_detected := da.domains
        primary_domain := da.primary_domain
        domain_count := da.domain_count
        confidence_breakdown := conf
        escalation_triggers := extractTriggerNames t }
    system_context :=
      { available_agents := agents
        agent_count := agents.length
        resource_constraints := {}
        performance_requirements := estimatePerformanceNeeds ta }
    strategic_requirements :=
      { requires_enterprise_coordination := t.enterprise_scope
        requires_architectural_design := t.architectural_decisions
        requires_multi_domain_expertise := t.multi_domain
        complexity_management_needed := t.high_complexity }
    expected_deliverable := "Strategic analysis with agent team recommendations and execution plan"
    escalation_timestamp := now
    escalation_reason := generateEscalationReason t }

/-- Model of `EscalationDecision` dataclass. -/
structure EscalationDecision where
  action : EscalationAction
  reason : String
  confidence : ℚ
  escalation_score : ℚ
  triggers : List String
  recommended_agent : Option String
  context_package : Option ContextPackage
deriving DecidableEq, Repr

/-- Model of `calculate_escalation_score`: the research-based base formula plus the
enterprise and architectural bonuses, capped at 1. -/
def calculateEscalationScore (complexity_score : ℚ) (da : DomainAnalysisD)
    (conf : ConfidenceAnalysisDict) (t : EscalationTriggers) : ℚ :=
  let base :=
    (1 - conf.total_confidence) * (4/10) + complexity_score * (3/10) +
      ((da.domain_count : ℚ) / 5) * (2/10) +
      (if t.ambiguous_requirements then (1 : ℚ) else 0) * (1/10)
  let s1 := if t.enterprise_scope then base + 2/10 else base
  let s2 := if t.architectural_decisions then s1 + 15/100 else s1
  min s2 1

/-- Model of `_determine_orchestration_type`. -/
def determineOrchestrationType (domain_count : ℕ) (complexity_score : ℚ)
    (confidence : ℚ) : String :=
  if 4 ≤ domain_count ∨ complexity_score > 8/10 then "@orchestrate-agents-adv"
  else if 2 ≤ domain_count ∨ complexity_score > 1/2 then "@orchestrate-agents"
  else "@orchestrate-tasks"

/-- Model of `_select_direct_agent`: first preferred agent of the top-confidence
domain that is in the available list, with `@orchestrate-tasks` as the
fallback both for "no domains" and "no preferred agent available". -/
def selectDirectAgent (da : DomainAnalysisD) (agents : List String) : String :=
  match da.domains with
  | [] => "@orchestrate-tasks"
  | d0 :: _ =>
      (d0.preferred_agents.find? (fun a => agents.contains a)).getD "@orchestrate-tasks"

/-- Model of `make_escalation_decision`. The trigger record — computed in the source
by `analyze_escalation_triggers` from the same inputs — is taken as an
explicit argument (see `EscalationTriggers`). -/
def makeEscalationDecision (triggers : EscalationTriggers) (task : List Char)
    (ta : TaskAnalysisDict) (da : DomainAnalysisD) (conf : ConfidenceAnalysisDict)
    (agents : List String) (now : ℚ) : EscalationDecision :=
  let complexity_score := ta.complexity_score
  let score := calculateEscalationScore complexity_score da conf triggers
  if score > 7/10 ∨ triggers.enterprise_scope = true then
    { action := .ESCALATE_TO_ORGANIZER
      reason := "Strategic analysis required"
      confidence := score
      escalation_score := score
      triggers := extractTriggerNames triggers
      recommended_agent := some "@agent-organizer"
      context_package := some (createContextPackage task ta da conf agents triggers now) }
  else if 2 ≤ da.domain_count ∧ conf.total_confidence > 6/10 then
    { action := .ORCHESTRATION_ROUTING
      reason := "Multi-agent coordination needed"
      confidence := conf.total_confidence
      escalation_score := score
      triggers := extractTriggerNames triggers
      recommended_agent :=
        some (determineOrchestrationType da.domain_count complexity_score
          conf.total_confidence)
      context_package := none }
  else
    { action := .DIRECT_AGENT_ROUTING
      reason := "Single agent capable"
      confidence := conf.total_confidence
      escalation_score := score
      triggers := extractTriggerNames triggers
      recommended_agent := some (selectDirectAgent da agents)
      context_package := none }

/-! ## Circuit breaker (src/core/error_handling.py, RoutingCircuitBreaker) -/

/-- Model of `CircuitBreakerState` enum. -/
inductive CircuitState
  | CLOSED
  | OPEN
  | HALF_OPEN
deriving DecidableEq, Repr

/-- Exceptions of the modelled Python code: the `TypeError` raised by
`_create_validation_error_decision` (see `createValidationErrorDecision`)
and any stage-internal exception absorbed by the circuit breaker. -/
inductive PyError
  | typeError
  | stageFailure (message : String)
deriving DecidableEq, Repr

/-- Model of `RoutingCircuitBreaker.__init__` state: thresholds, counters, the state
machine, the `state_transitions` counters and the `uptime_stats` dict. The
bounded `error_log` of `ErrorContext` records is write-only telemetry and is
omitted, as is the severity classification (logging only — it never changes
control flow). -/
structure CircuitBreaker where
  failure_threshold : ℕ := 5
  recovery_timeout : ℚ := 30
  success_threshold : ℕ := 3
  failure_count : ℕ := 0
  success_count : ℕ := 0
  last_failure_time : Option ℚ := none
  state : CircuitState := .CLOSED
  closed_to_open : ℕ := 0
  open_to_half_open : ℕ := 0
  half_open_to_closed : ℕ := 0
  half_open_to_open : ℕ := 0
  total_requests : ℕ := 0
  successful_requests : ℕ := 0
  failed_requests : ℕ := 0
  circuit_open_count : ℕ := 0
deriving DecidableEq, Repr

/-- Model of `_should_attempt_reset`. -/
def shouldAttemptReset (cb : CircuitBreaker) (now : ℚ) : Bool :=
  match cb.last_failure_time with
  | none => true
  | some t => decide (now - t ≥ cb.recovery_timeout)

/-- Model of `_transition_to_half_open`. -/
def transitionToHalfOpen (cb : CircuitBreaker) : CircuitBreaker :=
  { cb with
    state := .HALF_OPEN
    success_count := 0
    open_to_half_open := cb.open_to_half_open + 1 }

/-- Model of `_record_success` (CLOSED state). -/
def recordSuccess (cb : CircuitBreaker) : CircuitBreaker :=
  { cb with
    failure_count := 0
    successful_requests := cb.successful_requests + 1 }

/-- Model of `_record_failure` (CLOSED state): count the failure, remember its time
and open the circuit once the threshold is reached. -/
def recordFailure (cb : CircuitBreaker) (now : ℚ) : CircuitBreaker :=
  let cb1 := { cb with
    failure_count := cb.failure_count + 1
    last_failure_time := some now
    failed_requests := cb.failed_requests + 1 }
  if cb1.failure_threshold ≤ cb1.failure_count then
    { cb1 with state := .OPEN, closed_to_open := cb1.closed_to_open + 1 }
  else cb1

/-- Model of `_record_half_open_success`: close the circuit (and reset
`failure_count`) after `success_threshold` consecutive successes. -/
def recordHalfOpenSuccess (cb : CircuitBreaker) : CircuitBreaker :=
  let cb1 := { cb with
    success_count := cb.success_count + 1
    successful_requests := cb.successful_requests + 1 }
  if cb1.success_threshold ≤ cb1.success_count then
    { cb1 with
      state := .CLOSED
      failure_count := 0
      half_open_to_closed := cb1.half_open_to_closed + 1 }
  else cb1

/-- Model of `_record_half_open_failure`: any failure reopens the circuit. -/
def recordHalfOpenFailure (cb : CircuitBreaker) (now : ℚ) : CircuitBreaker :=
  { cb with
    failure_count := cb.failure_count + 1
    last_failure_time := some now
    failed_requests := cb.failed_requests + 1
    state := .OPEN
    half_open_to_open := cb.half_open_to_open + 1 }

/-- Model of `_fallback_routing`: the state-aware fallback decision (confidence 0.6).
The source reads `self.state` after the failure was recorded, so the message
reflects the post-transition state. -/
def fallbackRouting (cb : CircuitBreaker) : RoutingDecision :=
  { action := .enumV .ESCALATE
    selected_agent := some "@orchestrate-tasks"
    orchestration_type := none
    confidence := 6/10
    reasoning :=
      match cb.state with
      | .OPEN => "Circuit breaker OPEN - system protection active"
      | .HALF_OPEN => "Circuit breaker HALF_OPEN - recovery testing"
      | .CLOSED => "Circuit breaker fallback - unexpected path"
    analysis_time_ms := 0
    cache_hit := false
    complexity_score := 1/2
    domain_count := 0 }

/-- Model of `_execute_half_open`: run the routing function; a success is recorded
via `_record_half_open_success`, an exception reopens the circuit and falls
back. The wrapped pipeline can only raise before it mutates the engine (its
fallible stages run first), so the engine is unchanged on the error path. -/
def executeHalfOpen (cb : CircuitBreaker) (now : ℚ) (eng : ConfidenceEngine)
    (run : ConfidenceEngine → Except PyError (RoutingDecision × ConfidenceEngine)) :
    RoutingDecision × CircuitBreaker × ConfidenceEngine :=
  match run eng with
  | .ok (d, eng2) => (d, recordHalfOpenSuccess cb, eng2)
  | .error _ =>
      let cb2 := recordHalfOpenFailure cb now
      (fallbackRouting cb2, cb2, eng)

/-- Model of `RoutingCircuitBreaker.execute`: fail fast while OPEN (until the
recovery timeout allows a HALF_OPEN probe), monitor failures while CLOSED. -/
def circuitBreakerExecute (cb : CircuitBreaker) (now : ℚ) (eng : ConfidenceEngine)
    (run : ConfidenceEngine → Except PyError (RoutingDecision × ConfidenceEngine)) :
    RoutingDecision × CircuitBreaker × ConfidenceEngine :=
  let cb1 := { cb with total_requests := cb.total_requests + 1 }
  if cb1.state = .OPEN then
    if shouldAttemptReset cb1 now then
      executeHalfOpen (transitionToHalfOpen cb1) now eng run
    else
      let cb2 := { cb1 with circuit_open_count := cb1.circuit_open_count + 1 }
      (fallbackRouting cb2, cb2, eng)
  else if cb1.state = .HALF_OPEN then
    executeHalfOpen cb1 now eng run
  else
    match run eng with
    | .ok (d, eng2) => (d, recordSuccess cb1, eng2)
    | .error _ =>
        let cb2 := recordFailure cb1 now
        (fallbackRouting cb2, cb2, eng)

/-! ## Validator, error recovery and facade
(src/routing/router.py, src/core/error_handling.py,
src/cmd_agent_select_logic_phase2.py) -/

/-- Model of `RoutingValidator.validate_task_description` (the `isinstance` check is
subsumed by typing the input as text). -/
def validateTaskDescription (d : List Char) : Bool × String :=
  if stripChars d = [] then (false, "Task description cannot be empty")
  else if 2000 < d.length then (false, "Task description too long (max 2000 characters)")
  else if ["eval(", "exec(", "__import__", "subprocess"].any
      (fun p => containsSub (lowerChars d) p.data) then
    (false, "Task description contains potentially unsafe content")
  else (true, "Valid")

/-- Model of `RoutingValidator.sanitize_input`: strip, then collapse whitespace. -/
def sanitizeInput (d : List Char) : List Char :=
  joinWithSpace (splitWords (stripChars d))

/-- Model of `ErrorRecovery._recover_from_classification_failure`. -/
def recoverFromClassificationFailure (task : List Char) : RoutingDecision :=
  let wordCount := (splitWords task).length
  let complexity : ℚ :=
    if wordCount ≤ 5 then 3/10 else if 15 ≤ wordCount then 7/10 else 1/2
  { action := .enumV .ORCHESTRATION
    selected_agent := none
    orchestration_type := some "@orchestrate-tasks"
    confidence := 1/2
    reasoning := "Recovered from classification failure using simple heuristics"
    analysis_time_ms := 0
    cache_hit := false
    complexity_score := complexity
    domain_count := 1 }

/-- Model of `ErrorRecovery._recover_from_domain_failure`. -/
def recoverFromDomainFailure : RoutingDecision :=
  { action := .enumV .ESCALATE
    selected_agent := none
    orchestration_type := none
    confidence := 4/10
    reasoning := "Recovered from domain detection failure - escalating for manual analysis"
    analysis_time_ms := 0
    cache_hit := false
    complexity_score := 1/2
    domain_count := 0 }

/-- Model of `GracefulDegradation.get_emergency_routing`: the hardcoded last-resort
decision. -/
def getEmergencyRouting (task : List Char) : RoutingDecision :=
  { action := .enumV .ESCALATE
    selected_agent := some "@orchestrate-tasks"
    orchestration_type := none
    confidence := 1/2
    reasoning := "Emergency routing activated due to system degradation"
    analysis_time_ms := 0
    cache_hit := false
    complexity_score := 1/2
    domain_count := 1 }

/-- Model of `ErrorRecovery._recover_from_routing_failure`. -/
def recoverFromRoutingFailure (task : List Char) : RoutingDecision :=
  getEmergencyRouting task

/-- Model of `ErrorRecovery._recover_from_validation_failure`. -/
def recoverFromValidationFailure : RoutingDecision :=
  { action := .enumV .ESCALATE
    selected_agent := none
    orchestration_type := none
    confidence := 2/10
    reasoning := "Input validation failed - manual review required"
    analysis_time_ms := 0
    cache_hit := false
    complexity_score := 3/10
    domain_count := 0 }

/-- Model of `ErrorRecovery.attempt_recovery`: dispatch on the four registered
strategy names, `None` for anything else — in particular for the
`'phase2_routing_failure'` key the phase-2 facade passes. -/
def attemptRecovery (errorType : String) (task : List Char) : Option RoutingDecision :=
  if errorType = "classification_failure" then some (recoverFromClassificationFailure task)
  else if errorType = "domain_detection_failure" then some recoverFromDomainFailure
  else if errorType = "routing_failure" then some (recoverFromRoutingFailure task)
  else if errorType = "validation_failure" then some recoverFromValidationFailure
  else none

/-- Model of `CmdAgentSelectLogicPhase2._create_validation_error_decision`. The source
calls `RoutingDecision(action='ESCALATE', ..., confidence=0.1, ...,
escalation_score=1.0, escalation_triggers=['validation_failure'])`, but the
`RoutingDecision` dataclass (models.py) declares neither `escalation_score`
nor `escalation_triggers`, so the generated `__init__` raises `TypeError`
before any decision is produced: the intended confidence-0.1 decision is
unreachable. -/
def createValidationErrorDecision (errorMessage : String) : Except PyError RoutingDecision :=
  Except.error .typeError

/-- The classifier output fields the phase-2 pipeline reads
(`task_analysis.complexity_score`, `task_analysis.complexity_level`). -/
structure TaskAnalysisResult where
  complexity_score : ℚ
  complexity_level : String
deriving DecidableEq, Repr

/-- The dependency-injected pipeline stages: the hierarchical classifier
(`HierarchicalClassifier.classify_task`), the domain detector
(`DomainDetectionEngine.detect_domains`) and the escalation trigger scan
(`StrategicEscalationEngine.analyze_escalation_triggers`). They are
deterministic functions of their arguments whose keyword/regex internals no
claim depends on; theorems quantify over all of them, hence cover the
source's concrete instances, and the `Except` codomain models a stage
raising (the circuit breaker must absorb it). -/
structure PipelineStages where
  classify : List Char → Except PyError TaskAnalysisResult
  detectDomains : List Char → Except PyError DomainAnalysisD
  analyzeTriggers : List Char → ℚ → DomainAnalysisD → ConfidenceAnalysisDict → EscalationTriggers

/-- The `available_agents` catalog of `CmdAgentSelectLogicPhase2.__init__`. -/
def availableAgents : List String :=
  ["@analyze-screenshot", "@debug-issue", "@test-automation", "@build-frontend",
   "@build-backend", "@security-auditor", "@performance-engineer",
   "@documentation-expert", "@deploy-application", "@architect-specialist",
   "@orchestrate-tasks", "@orchestrate-agents", "@orchestrate-agents-adv",
   "@agent-organizer"]

/-- Model of `hasattr(confidence_analysis, 'cache_hit')` in the pipeline's
`RoutingDecision` construction: `ConfidenceComponents` declares only its five
component fields and no code path ever sets a `cache_hit` attribute on an
instance, so the `hasattr` test is always False and the conjunction
`hasattr(...) and confidence_analysis.cache_hit` short-circuits to False. -/
def confidenceComponentsHasCacheHitAttr : Bool := false

/-- Model of `CmdAgentSelectLogicPhase2._execute_phase2_routing_pipeline`:
classify → detect domains → confidence scoring (cache-aware) → escalation
decision → assembled `RoutingDecision`. Latency bookkeeping and the
dynamically attached reporting attributes (`escalation_score`,
`confidence_breakdown`, ...) are omitted; the dataclass fields are all
modelled, including the always-False `cache_hit` (see
`confidenceComponentsHasCacheHitAttr`). -/
def executePipeline (st : PipelineStages) (eng : ConfidenceEngine) (task : List Char)
    (now : ℚ) : Except PyError (RoutingDecision × ConfidenceEngine) :=
  match st.classify task with
  | .error err => .error err
  | .ok ta =>
    match st.detectDomains task with
    | .error err => .error err
    | .ok da =>
      let result := calculateRoutingConfidence eng task da availableAgents now
      let conf := result.1
      let confDict : ConfidenceAnalysisDict :=
        { total_confidence := conf.total_confidence
          pattern_match := conf.pattern_match
          historical_success := conf.historical_success
          context_completeness := conf.context_completeness
          resource_availability := conf.resource_availability }
      let triggers := st.analyzeTriggers task ta.complexity_score da confDict
      let ed := makeEscalationDecision triggers task
        ⟨ta.complexity_score, ta.complexity_level⟩ da confDict availableAgents now
      Except.ok
        ({ action := .strV (escalationActionValue ed.action)
           selected_agent := ed.recommended_agent
           orchestration_type :=
             if ed.action = .ORCHESTRATION_ROUTING then ed.recommended_agent else none
           confidence := conf.total_confidence
           reasoning := ed.reason
           analysis_time_ms := 0
           cache_hit := confidenceComponentsHasCacheHitAttr
           complexity_score := ta.complexity_score
           domain_count := da.domain_count }, result.2)

/-- The facade's mutable state: circuit breaker and confidence engine (the
performance monitor is record-only telemetry and is omitted). -/
structure SystemState where
  circuit_breaker : CircuitBreaker := {}
  engine : ConfidenceEngine := {}
deriving Repr

/-- Model of `CmdAgentSelectLogicPhase2.route_task`. Inside the `try` block a failed
validation calls `_create_validation_error_decision`, whose `TypeError`
(see `createValidationErrorDecision`) lands in the `except` handler: that
handler calls `attempt_recovery('phase2_routing_failure', ...)` — a key not
in `recovery_strategies`, hence `None` — and falls back to
`get_emergency_routing`. A valid input is sanitized and routed through the
circuit breaker, which absorbs pipeline exceptions itself. -/
def routeTask (st : PipelineStages) (sys : SystemState) (task : List Char) (now : ℚ) :
    RoutingDecision × SystemState :=
  let v := validateTaskDescription task
  if v.1 = false then
    match createValidationErrorDecision v.2 with
    | .ok d => (d, sys)
    | .error _ =>
        match attemptRecovery "phase2_routing_failure" task with
        | some d => (d, sys)
        | none => (getEmergencyRouting task, sys)
  else
    let clean := sanitizeInput task
    let r := circuitBreakerExecute sys.circuit_breaker now sys.engine
      (fun eng => executePipeline st eng clean now)
    (r.1, { circuit_breaker := r.2.1, engine := r.2.2 })

/-! ## Concrete fixtures used by witnesses and counterexamples -/

/-- A domain analysis with no detected domains. -/
def daEmpty : DomainAnalysisD := ⟨[], 0, 0, none⟩

/-- A single-domain analysis with primary confidence 0.9. -/
def daHigh : DomainAnalysisD := ⟨[⟨"frontend", 9/10, 1/10, []⟩], 1, 9/10, some "frontend"⟩

/-- A single-domain analysis with primary confidence 0.1 — same domain count
and (for any fixed worker list) the same cache key as `daHigh`. -/
def daLow : DomainAnalysisD := ⟨[⟨"frontend", 1/10, 1/10, []⟩], 1, 1/10, some "frontend"⟩

/-- An arbitrary concrete components record. -/
def confUnit : ConfidenceComponents := ⟨1, 1, 1, 1, 1⟩

/-- Three distinct cache keys. -/
def keyA : CacheKey := ([], 1, 0)

/-- Three distinct cache keys. -/
def keyB : CacheKey := ([], 2, 0)

/-- Three distinct cache keys. -/
def keyC : CacheKey := ([], 3, 0)

/-- An L1 tier with capacity 2 (the constructor's `max_entries` argument)
after: put `keyA` at time 0, put `keyB` at time 1, get `keyA` at time 2
(a hit, which `move_to_end`s `keyA` behind `keyB`). -/
def l1BeforeEvict : TierState :=
  (tierGet 3600 2 keyA
    (tierPut 2 "L1" 1 keyB confUnit (tierPut 2 "L1" 0 keyA confUnit {}))).2

/-- A fresh confidence engine (`ConfidenceEngine()`), and the two
calculations of the C4 trace: the first on `daHigh`, the second on `daLow`
with the same (empty) task text and worker list. -/
def engineFresh : ConfidenceEngine := {}

/-- First C4 call: a cache miss that computes and write-through caches. -/
def c4FirstCall : ConfidenceComponents × ConfidenceEngine :=
  calculateRoutingConfidence engineFresh [] daHigh [] 0

/-- Second C4 call: same text and worker list but `daLow`; its cache key
collides with the `daHigh` entry. -/
def c4SecondCall : ConfidenceComponents × ConfidenceEngine :=
  calculateRoutingConfidence c4FirstCall.2 [] daLow [] 0

/-- An engine whose cache already holds an entry for
`([], daEmpty, [])` — used to exercise the cache-hit path. -/
def engineWithHit : ConfidenceEngine :=
  { cache := cachePut 0 [] daEmpty [] confUnit {} }

/-- A routing function that always raises (a failing pipeline stage). -/
def runFail : ConfidenceEngine → Except PyError (RoutingDecision × ConfidenceEngine) :=
  fun _ => Except.error (.stageFailure "stage exception")

/-- A routing function that always succeeds with the emergency decision as
an arbitrary payload. -/
def runOk : ConfidenceEngine → Except PyError (RoutingDecision × ConfidenceEngine) :=
  fun eng => Except.ok (getEmergencyRouting [], eng)

/-- One circuit-breaker call with a failing routing function, tracking only
the breaker state. -/
def cbFailStep (cb : CircuitBreaker) : CircuitBreaker :=
  (circuitBreakerExecute cb 0 engineFresh runFail).2.1

/-- One circuit-breaker call with a succeeding routing function, tracking
only the breaker state. -/
def cbOkStep (cb : CircuitBreaker) : CircuitBreaker :=
  (circuitBreakerExecute cb 0 engineFresh runOk).2.1

/-- An OPEN breaker whose last failure was at time 0. -/
def cbOpen : CircuitBreaker := { state := .OPEN, last_failure_time := some 0 }

/-- A HALF_OPEN breaker with no successes recorded yet. -/
def cbHalf : CircuitBreaker := { state := .HALF_OPEN, success_count := 0 }

/-- All six escalation triggers off. -/
def triggersNone : EscalationTriggers := ⟨false, false, false, false, false, false⟩

/-- Only the enterprise-scope trigger on. -/
def triggersEnterprise : EscalationTriggers := ⟨false, false, false, true, false, false⟩

/-- A confidence-analysis dict with every component 0.5. -/
def confDictHalf : ConfidenceAnalysisDict := ⟨1/2, 1/2, 1/2, 1/2, 1/2⟩

/-- A confidence-analysis dict with total confidence 0.7. -/
def confDictHigh : ConfidenceAnalysisDict := ⟨7/10, 1/2, 1/2, 1/2, 1/2⟩

/-- A two-domain analysis whose top domain prefers an available agent. -/
def daTwo : DomainAnalysisD :=
  ⟨[⟨"frontend", 8/10, 1/10, ["@build-frontend"]⟩, ⟨"security", 7/10, 2/10, ["@security-auditor"]⟩],
   2, 3/2, some "frontend"⟩

/-- Trivial concrete pipeline stages (never raising, detecting nothing). -/
def stagesTrivial : PipelineStages :=
  { classify := fun _ => .ok ⟨1/2, "STANDARD"⟩
    detectDomains := fun _ => .ok daEmpty
    analyzeTriggers := fun _ _ _ _ => triggersNone }

/-- Concrete pipeline stages that detect the `daHigh` domain analysis. -/
def stagesC6 : PipelineStages :=
  { classify := fun _ => .ok ⟨1/2, "STANDARD"⟩
    detectDomains := fun _ => .ok daHigh
    analyzeTriggers := fun _ _ _ _ => triggersNone }

/-- A fresh facade state (`CmdAgentSelectLogicPhase2()`). -/
def sysFresh : SystemState := {}

/-- The decision of a pipeline run, when it did not raise. -/
def pipelineDecision (r : Except PyError (RoutingDecision × ConfidenceEngine)) :
    Option RoutingDecision :=
  r.toOption.map Prod.fst

/-- The engine state after a pipeline run, when it did not raise. -/
def pipelineEngine (r : Except PyError (RoutingDecision × ConfidenceEngine)) :
    Option ConfidenceEngine :=
  r.toOption.map Prod.snd

/-- The engine state after the first C6 pipeline run. -/
def c6Engine1 : ConfidenceEngine :=
  (pipelineEngine (executePipeline stagesC6 engineFresh [] 0)).getD engineFresh

/-! ### Claim C7 -/

/-- C7 (counterexample): `update_weights` with prediction error 1000 and all
four features 0.25, starting from the default weights, leaves the weights
summing to −9: the normalization step is skipped because the post-step total
is not positive, so the weights do not sum to 1.0 within any tolerance < 10. -/
theorem updateWeights_counterexample :
    weightSum (updateWeights {} 1000 ⟨1/4, 1/4, 1/4, 1/4⟩) = -9 ∧ (-9 : ℚ) ≠ 1 := by
  constructor
  · norm_num [weightSum, updateWeights, preNormTotal, rawPatternWeight,
      rawHistoricalWeight, rawContextWeight, rawResourceWeight, currentLearningRate]
  · norm_num

/-- C7 (amended): after any call to `update_weights` whose post-step weight
total is positive (the guard of the source's normalization branch — in
particular any update with |prediction error| ≤ 1 and features in [0,1]
starting from normalized weights), the four adaptive weights sum to exactly 1. -/
theorem updateWeights_sum_one (w : AdaptiveWeights) (e : ℚ) (f : FeatureValues)
    (h : 0 < preNormTotal w e f) : weightSum (updateWeights w e f) = 1 := by
  unfold updateWeights weightSum
  simp only [h, if_pos]
  rw [div_add_div_same, div_add_div_same, div_add_div_same]
  exact div_self (ne_of_gt h)

/-- Witness for `updateWeights_sum_one` at a concrete learning update
(default weights, prediction error 1/2, all features 1/2). -/
theorem updateWeights_sum_one_witness :
    0 < preNormTotal {} (1/2) ⟨1/2, 1/2, 1/2, 1/2⟩ ∧
      weightSum (updateWeights {} (1/2) ⟨1/2, 1/2, 1/2, 1/2⟩) = 1 := by
  refine ⟨?_, updateWeights_sum_one _ _ _ ?_⟩ <;>
    norm_num [preNormTotal, rawPatternWeight, rawHistoricalWeight,
      rawContextWeight, rawResourceWeight, currentLearningRate]


/-! ## Association-list and cache lemmas -/

theorem alistFind_assign_self {α β : Type} [DecidableEq α] (k : α) (v : β)
    (l : List (α × β)) : alistFind k (alistAssign k v l) = some v := by
  induction l with
  | nil => simp [alistAssign, alistFind]
  | cons p tl ih =>
      obtain ⟨k', v'⟩ := p
      by_cases h : k' = k
      · simp [alistAssign, alistFind, h]
      · simp [alistAssign, alistFind, h, ih]

theorem alistFind_assign_ne {α β : Type} [DecidableEq α] {k' k : α} (v : β)
    (l : List (α × β)) (h : k' ≠ k) :
    alistFind k (alistAssign k' v l) = alistFind k l := by
  induction l with
  | nil => simp [alistAssign, alistFind, h]
  | cons p tl ih =>
      obtain ⟨k₀, v₀⟩ := p
      by_cases h0 : k₀ = k'
      · simp [alistAssign, alistFind, h0, h]
      · simp only [alistAssign, if_neg h0, alistFind]
        by_cases h1 : k₀ = k
        · simp [h1]
        · simp [h1, ih]

theorem alistFind_eq_none {α β : Type} [DecidableEq α] {k : α}
    {l : List (α × β)} (h : ∀ p ∈ l, p.1 ≠ k) : alistFind k l = none := by
  induction l with
  | nil => rfl
  | cons p tl ih =>
      obtain ⟨k₀, v₀⟩ := p
      have hk : k₀ ≠ k := h (k₀, v₀) (List.mem_cons_self _ _)
      simp only [alistFind, if_neg hk]
      exact ih (fun q hq => h q (List.mem_cons_of_mem _ hq))

theorem alistFind_tierPut_self (m : ℕ) (layer : String) (now : ℚ) (k : CacheKey)
    (conf : ConfidenceComponents) (t : TierState) :
    alistFind k (tierPut m layer now k conf t).entries =
      some ⟨conf, now, 1, layer⟩ := by
  rcases h : evictToCapacity m t.entries with ⟨l, n⟩
  simp [tierPut, h, alistFind_assign_self]

/-- Evaluation of the eviction loop on a tier holding exactly `n` entries:
exactly the front entry is popped. -/
theorem evictToCapacity_at_capacity (n : ℕ) (x : CacheKey × CacheEntry)
    (tl : List (CacheKey × CacheEntry)) (h : (x :: tl).length = n) :
    evictToCapacity n (x :: tl) = (tl, 1) := by
  have h1 : n ≤ (x :: tl).length := le_of_eq h.symm
  cases tl with
  | nil => rw [evictToCapacity, if_pos h1]; simp [evictToCapacity]
  | cons y tl' =>
      have h2 : ¬ (n ≤ (y :: tl').length) := by
        simp only [List.length_cons] at h ⊢; omega
      rw [evictToCapacity, if_pos h1, evictToCapacity, if_neg h2]

/-- Reading a key straight after the write-through `put` stored it: the L1
lookup succeeds (shared helper for several claims). -/
theorem cacheGet_cachePut_same (c : L1ConfidenceCache) (task : List Char)
    (da : DomainAnalysisD) (agents : List String) (conf : ConfidenceComponents)
    (now : ℚ) (httl : 0 ≤ c.ttl_seconds) :
    (cacheGet now task da agents (cachePut now task da agents conf c)).1 = some conf ∧
    (cacheGet now task da agents (cachePut now task da agents conf c)).2.l1.stats.hits =
      (cachePut now task da agents conf c).l1.stats.hits + 1 ∧
    (cacheGet now task da agents (cachePut now task da agents conf c)).2.l2 =
      (cachePut now task da agents conf c).l2 ∧
    (cacheGet now task da agents (cachePut now task da agents conf c)).2.l3 =
      (cachePut now task da agents conf c).l3 := by
  have h0 : ¬ (now - now > c.ttl_seconds) := by
    rw [sub_self]; exact not_lt.mpr httl
  simp [cacheGet, cachePut, tierGet, alistFind_tierPut_self, h0, httl]

/-! ### Claim C5 -/

/-- C5: cache round-trip and promotion. (a) Immediately after
`put(text, domain_analysis, workers, components)`, a `get` with the same key
inputs returns exactly those components, served from Tier 1: the L1 hit
counter is bumped and the L2/L3 tiers are untouched. (b) When `get` finds a
valid entry only in Tier 2 (`_l1_get` misses, `_l2_get` hits), the entry is
written into Tier 1; (c) when it is found only in Tier 3, it is written into
both Tier 2 and Tier 1. -/
theorem cache_roundtrip_and_promotion (c : L1ConfidenceCache) (task : List Char)
    (da : DomainAnalysisD) (agents : List String) (conf : ConfidenceComponents)
    (now : ℚ) (httl : 0 ≤ c.ttl_seconds) :
    ((cacheGet now task da agents (cachePut now task da agents conf c)).1 = some conf ∧
     (cacheGet now task da agents (cachePut now task da agents conf c)).2.l1.stats.hits =
       (cachePut now task da agents conf c).l1.stats.hits + 1 ∧
     (cacheGet now task da agents (cachePut now task da agents conf c)).2.l2 =
       (cachePut now task da agents conf c).l2 ∧
     (cacheGet now task da agents (cachePut now task da agents conf c)).2.l3 =
       (cachePut now task da agents conf c).l3) ∧
    (∀ v, (tierGet c.ttl_seconds now (generateKey task da agents) c.l1).1 = none →
      (tierGet c.l2_ttl_seconds now (generateKey task da agents) c.l2).1 = some v →
      (cacheGet now task da agents c).1 = some v ∧
      alistFind (generateKey task da agents) (cacheGet now task da agents c).2.l1.entries =
        some ⟨v, now, 1, "L1"⟩) ∧
    (∀ v, (tierGet c.ttl_seconds now (generateKey task da agents) c.l1).1 = none →
      (tierGet c.l2_ttl_seconds now (generateKey task da agents) c.l2).1 = none →
      (tierGet c.l3_ttl_seconds now (generateKey task da agents) c.l3).1 = some v →
      (cacheGet now task da agents c).1 = some v ∧
      alistFind (generateKey task da agents) (cacheGet now task da agents c).2.l1.entries =
        some ⟨v, now, 1, "L1"⟩ ∧
      alistFind (generateKey task da agents) (cacheGet now task da agents c).2.l2.entries =
        some ⟨v, now, 1, "L2"⟩) := by
  refine ⟨cacheGet_cachePut_same c task da agents conf now httl, ?_, ?_⟩
  · intro v h1 h2
    rcases hg1 : tierGet c.ttl_seconds now (generateKey task da agents) c.l1 with ⟨r1, t1⟩
    rcases hg2 : tierGet c.l2_ttl_seconds now (generateKey task da agents) c.l2 with ⟨r2, t2⟩
    rw [hg1] at h1; rw [hg2] at h2
    simp only at h1 h2
    subst h1; subst h2
    simp [cacheGet, hg1, hg2, alistFind_tierPut_self]
  · intro v h1 h2 h3
    rcases hg1 : tierGet c.ttl_seconds now (generateKey task da agents) c.l1 with ⟨r1, t1⟩
    rcases hg2 : tierGet c.l2_ttl_seconds now (generateKey task da agents) c.l2 with ⟨r2, t2⟩
    rcases hg3 : tierGet c.l3_ttl_seconds now (generateKey task da agents) c.l3 with ⟨r3, t3⟩
    rw [hg1] at h1; rw [hg2] at h2; rw [hg3] at h3
    simp only at h1 h2 h3
    subst h1; subst h2; subst h3
    simp [cacheGet, hg1, hg2, hg3, alistFind_tierPut_self]

/-- Witness for `cache_roundtrip_and_promotion`: the round trip on a fresh
cache, a Tier-2-only hit and a Tier-3-only hit, all at concrete inputs. -/
theorem cache_roundtrip_and_promotion_witness :
    (cacheGet 0 [] daEmpty [] (cachePut 0 [] daEmpty [] confUnit {})).1 = some confUnit ∧
    (cacheGet 0 [] daEmpty []
      { l2 := ⟨[(([], 0, 0), ⟨confUnit, 0, 1, "L2"⟩)], {}⟩ }).1 = some confUnit ∧
    (cacheGet 0 [] daEmpty []
      { l3 := ⟨[(([], 0, 0), ⟨confUnit, 0, 1, "L3"⟩)], {}⟩ }).1 = some confUnit := by
  refine ⟨(cache_roundtrip_and_promotion {} [] daEmpty [] confUnit 0 (by norm_num)).1.1,
    ((cache_roundtrip_and_promotion _ [] daEmpty [] confUnit 0 (by norm_num)).2.1 confUnit
      ?_ ?_).1,
    ((cache_roundtrip_and_promotion _ [] daEmpty [] confUnit 0 (by norm_num)).2.2 confUnit
      ?_ ?_ ?_).1⟩ <;>
    norm_num [tierGet, alistFind, generateKey, daEmpty]

/-! ### Claim C8 -/

theorem alistFind_of_mem_nodup {α β : Type} [DecidableEq α]
    {l : List (α × β)} {p : α × β} (hnodup : (l.map Prod.fst).Nodup)
    (hp : p ∈ l) : alistFind p.1 l = some p.2 := by
  induction l with
  | nil => cases hp
  | cons q tl ih =>
      rcases List.mem_cons.mp hp with h | h
      · subst h
        simp [alistFind]
      · have hq : q.1 ≠ p.1 := by
          intro hcontra
          have : p.1 ∈ tl.map Prod.fst := List.mem_map_of_mem _ h
          rw [← hcontra] at this
          exact (List.nodup_cons.mp hnodup).1 this
        simp only [alistFind, if_neg hq]
        exact ih (List.nodup_cons.mp hnodup).2 h

/-- C8 (counterexample): with an L1 tier of capacity 2, after
`put keyA (t=0); put keyB (t=1); get keyA (t=2)` the tier holds `keyA`
(insertion time 0) and `keyB` (insertion time 1); the capacity put of `keyC`
at t=3 evicts `keyB` — not the entry with the oldest insertion time, which is
`keyA` (0 < 1): a hit re-orders the `OrderedDict`, so eviction is
least-recently-used-first, not oldest-insertion-first. -/
theorem l1_eviction_not_oldest_insertion :
    (alistFind keyA l1BeforeEvict.entries).map CacheEntry.timestamp = some 0 ∧
    (alistFind keyB l1BeforeEvict.entries).map CacheEntry.timestamp = some 1 ∧
    ((0 : ℚ) < 1) ∧
    alistFind keyB (tierPut 2 "L1" 3 keyC confUnit l1BeforeEvict).entries = none ∧
    (alistFind keyA (tierPut 2 "L1" 3 keyC confUnit l1BeforeEvict).entries).map
      CacheEntry.timestamp = some 0 := by
  norm_num [l1BeforeEvict, tierGet, tierPut, alistFind, alistAssign, alistRemove,
    evictToCapacity, keyA, keyB, keyC, confUnit]

/-- C8 (amended): when a put occurs while a tier is at capacity, the entry
evicted is the front of the tier's `OrderedDict`, i.e. the least recently
used one (a get moves an entry to the back); entries behind it survive. The
front entry is the oldest-inserted one exactly when the order is sorted by
insertion time — which holds when no entry was re-accessed or overwritten
since insertion, the case the claim describes. -/
theorem tierPut_at_capacity_evicts_lru (maxE : ℕ) (layer : String) (now : ℚ)
    (key : CacheKey) (conf : ConfidenceComponents) (t : TierState)
    (k : CacheKey) (e : CacheEntry) (rest : List (CacheKey × CacheEntry))
    (hc : t.entries = (k, e) :: rest)
    (hlen : t.entries.length = maxE)
    (hk : k ≠ key)
    (hnodup : (t.entries.map Prod.fst).Nodup) :
    alistFind k (tierPut maxE layer now key conf t).entries = none ∧
    (∀ p ∈ rest, p.1 ≠ key →
      alistFind p.1 (tierPut maxE layer now key conf t).entries = some p.2) := by
  have hev : evictToCapacity maxE t.entries = (rest, 1) := by
    rw [hc]
    exact evictToCapacity_at_capacity _ _ _ (hc ▸ hlen)
  have hrestnodup : (rest.map Prod.fst).Nodup := by
    rw [hc] at hnodup
    exact (List.nodup_cons.mp hnodup).2
  have hknotin : k ∉ rest.map Prod.fst := by
    rw [hc] at hnodup
    exact (List.nodup_cons.mp hnodup).1
  constructor
  · simp only [tierPut, hev]
    rw [alistFind_assign_ne _ _ (Ne.symm hk)]
    exact alistFind_eq_none (fun p hp hcontra =>
      hknotin (hcontra ▸ List.mem_map_of_mem _ hp))
  · intro p hp hpkey
    simp only [tierPut, hev]
    rw [alistFind_assign_ne _ _ (Ne.symm hpkey)]
    exact alistFind_of_mem_nodup hrestnodup hp

/-- Witness for `tierPut_at_capacity_evicts_lru` on a concrete 2-entry tier
at capacity. -/
theorem tierPut_at_capacity_evicts_lru_witness :
    alistFind keyA (tierPut 2 "L1" 3 keyC confUnit
      ⟨[(keyA, ⟨confUnit, 0, 1, "L1"⟩), (keyB, ⟨confUnit, 1, 1, "L1"⟩)], {}⟩).entries = none ∧
    alistFind keyB (tierPut 2 "L1" 3 keyC confUnit
      ⟨[(keyA, ⟨confUnit, 0, 1, "L1"⟩), (keyB, ⟨confUnit, 1, 1, "L1"⟩)], {}⟩).entries =
      some ⟨confUnit, 1, 1, "L1"⟩ := by
  have h := tierPut_at_capacity_evicts_lru 2 "L1" 3 keyC confUnit
    ⟨[(keyA, ⟨confUnit, 0, 1, "L1"⟩), (keyB, ⟨confUnit, 1, 1, "L1"⟩)], {}⟩
    keyA ⟨confUnit, 0, 1, "L1"⟩ [(keyB, ⟨confUnit, 1, 1, "L1"⟩)]
    rfl rfl (by decide) (by decide)
  exact ⟨h.1, h.2 (keyB, ⟨confUnit, 1, 1, "L1"⟩) (by simp) (by decide)⟩

/-! ### Claims C4 and C10 -/

theorem cacheGet_ttl_seconds (now : ℚ) (task : List Char) (da : DomainAnalysisD)
    (agents : List String) (c : L1ConfidenceCache) :
    ((cacheGet now task da agents c).2).ttl_seconds = c.ttl_seconds := by
  rcases h1 : tierGet c.ttl_seconds now (generateKey task da agents) c.l1 with ⟨r1, t1⟩
  rcases h2 : tierGet c.l2_ttl_seconds now (generateKey task da agents) c.l2 with ⟨r2, t2⟩
  rcases h3 : tierGet c.l3_ttl_seconds now (generateKey task da agents) c.l3 with ⟨r3, t3⟩
  cases r1 <;> cases r2 <;> cases r3 <;> simp [cacheGet, h1, h2, h3]

/-- C4 (counterexample): the cache key collapses `domain_analysis` to its
domain count (`_generate_key` hashes `text:len(domains):len(agents)`), so
with the same text and worker list a call on `daLow` is served the entry
computed for `daHigh`: the cache-served `total_confidence` (0.44) differs
from what recomputation on a cache miss would produce for the `daLow`
triple (0.266), with no learning step anywhere in the trace. -/
theorem cachehit_vs_recompute_counterexample :
    c4SecondCall.1 = c4FirstCall.1 ∧
    c4SecondCall.2.performance_stats.cache_hits = 1 ∧
    c4SecondCall.1.total_confidence = 44/100 ∧
    (computeConfidenceComponents [] daLow [] c4SecondCall.2.adaptive_weights
      c4SecondCall.2.historical_success_db).total_confidence = 266/1000 ∧
    (44 : ℚ)/100 ≠ 266/1000 := by
  norm_num [c4SecondCall, c4FirstCall, engineFresh, calculateRoutingConfidence,
    computeConfidenceComponents, cacheGet, cachePut, tierGet, tierPut, alistFind,
    alistAssign, alistRemove, evictToCapacity, generateKey, daHigh, daLow,
    calculatePatternConfidence, calculateHistoricalConfidence,
    calculateContextConfidence, calculateResourceConfidence, estimateTokens,
    taskSignature, splitWords, splitWordsAux, lowerChars]

/-- C4 (amended): determinism does hold whenever the served entry was
computed from the same triple: if an evaluation of a triple misses and
computes (its result being the pure function of the triple and the engine's
learning state), then re-evaluating the same triple with no intervening
learning step is served from the cache with exactly that
`total_confidence`. -/
theorem cachehit_matches_recompute_same_triple (e : ConfidenceEngine)
    (task : List Char) (da : DomainAnalysisD) (agents : List String) (now : ℚ)
    (httl : 0 ≤ e.cache.ttl_seconds)
    (hmiss : (cacheGet now task da agents e.cache).1 = none) :
    (calculateRoutingConfidence e task da agents now).1 =
      computeConfidenceComponents task da agents e.adaptive_weights
        e.historical_success_db ∧
    (calculateRoutingConfidence (calculateRoutingConfidence e task da agents now).2
        task da agents now).1.total_confidence =
      (calculateRoutingConfidence e task da agents now).1.total_confidence := by
  rcases hg : cacheGet now task da agents e.cache with ⟨r, c1⟩
  rw [hg] at hmiss
  simp only at hmiss
  subst hmiss
  have hc1ttl : c1.ttl_seconds = e.cache.ttl_seconds := by
    have := cacheGet_ttl_seconds now task da agents e.cache
    rw [hg] at this
    exact this
  have hput := cacheGet_cachePut_same c1 task da agents
    (computeConfidenceComponents task da agents e.adaptive_weights
      e.historical_success_db) now (hc1ttl ▸ httl)
  constructor
  · simp [calculateRoutingConfidence, hg]
  · simp only [calculateRoutingConfidence, hg]
    rcases hg2 : cacheGet now task da agents
      (cachePut now task da agents
        (computeConfidenceComponents task da agents e.adaptive_weights
          e.historical_success_db) c1) with ⟨r2, c2⟩
    rw [hg2] at hput
    simp only at hput
    rw [hput.1]

/-- Witness for `cachehit_matches_recompute_same_triple` on a fresh engine
and a concrete triple. -/
theorem cachehit_matches_recompute_same_triple_witness :
    (calculateRoutingConfidence engineFresh [] daHigh [] 0).1 =
      computeConfidenceComponents [] daHigh [] engineFresh.adaptive_weights
        engineFresh.historical_success_db ∧
    (calculateRoutingConfidence (calculateRoutingConfidence engineFresh [] daHigh [] 0).2
        [] daHigh [] 0).1.total_confidence =
      (calculateRoutingConfidence engineFresh [] daHigh [] 0).1.total_confidence := by
  exact cachehit_matches_recompute_same_triple engineFresh [] daHigh [] 0
    (by norm_num [engineFresh])
    (by norm_num [engineFresh, cacheGet, tierGet, alistFind, generateKey, daHigh])

/-- C10: a call to `calculate_routing_confidence` that is served from the
cache leaves the engine's long-lived learning state unchanged — the adaptive
weights and the historical-success table are equal before and after — and
only bumps the cache-hit performance counter (not the calculation
counter). -/
theorem cache_hit_preserves_learning_state (e : ConfidenceEngine)
    (task : List Char) (da : DomainAnalysisD) (agents : List String) (now : ℚ)
    (h : (cacheGet now task da agents e.cache).1.isSome) :
    (calculateRoutingConfidence e task da agents now).2.adaptive_weights =
      e.adaptive_weights ∧
    (calculateRoutingConfidence e task da agents now).2.historical_success_db =
      e.historical_success_db ∧
    (calculateRoutingConfidence e task da agents now).2.performance_stats.cache_hits =
      e.performance_stats.cache_hits + 1 ∧
    (calculateRoutingConfidence e task da agents now).2.performance_stats.calculations =
      e.performance_stats.calculations := by
  rcases hg : cacheGet now task da agents e.cache with ⟨r, c1⟩
  cases r with
  | none => rw [hg] at h; simp at h
  | some v => simp [calculateRoutingConfidence, hg]

/-- Witness for `cache_hit_preserves_learning_state` on an engine whose
cache already holds the requested key. -/
theorem cache_hit_preserves_learning_state_witness :
    (cacheGet 0 [] daEmpty [] engineWithHit.cache).1.isSome = true ∧
    (calculateRoutingConfidence engineWithHit [] daEmpty [] 0).2.adaptive_weights =
      engineWithHit.adaptive_weights := by
  have hsome : (cacheGet 0 [] daEmpty [] engineWithHit.cache).1 = some confUnit := by
    have := (cacheGet_cachePut_same {} [] daEmpty [] confUnit 0 (by norm_num)).1
    exact this
  refine ⟨by rw [hsome]; rfl, ?_⟩
  exact (cache_hit_preserves_learning_state engineWithHit [] daEmpty [] 0
    (by rw [hsome]; rfl)).1

/-! ### Claim C1 -/

/-- C1: `make_escalation_decision` applies its three rules in order, first
match winning: (1) escalation score > 0.7 or the enterprise-scope trigger ⇒
ESCALATE to the strategic planner (`@agent-organizer`) with a non-null
context package; (2) otherwise domain_count ≥ 2 and total confidence > 0.6 ⇒
ORCHESTRATED with the tier chosen by the claim's thresholds (heaviest when
domain_count ≥ 4 or complexity > 0.8, standard when domain_count ≥ 2 or
complexity ≥ 0.5, else lightest); (3) otherwise DIRECT, selecting the
top-confidence domain's first preferred worker present in the available
list, or the generic fallback when no domain or no preferred worker is
available. -/
theorem make_escalation_decision_rules (triggers : EscalationTriggers)
    (task : List Char) (ta : TaskAnalysisDict) (da : DomainAnalysisD)
    (conf : ConfidenceAnalysisDict) (agents : List String) (now : ℚ) :
    ((calculateEscalationScore ta.complexity_score da conf triggers > 7/10 ∨
        triggers.enterprise_scope = true) →
      (makeEscalationDecision triggers task ta da conf agents now).action =
        .ESCALATE_TO_ORGANIZER ∧
      (makeEscalationDecision triggers task ta da conf agents now).recommended_agent =
        some "@agent-organizer" ∧
      (makeEscalationDecision triggers task ta da conf agents now).context_package ≠ none) ∧
    (¬(calculateEscalationScore ta.complexity_score da conf triggers > 7/10 ∨
        triggers.enterprise_scope = true) →
      2 ≤ da.domain_count → conf.total_confidence > 6/10 →
      (makeEscalationDecision triggers task ta da conf agents now).action =
        .ORCHESTRATION_ROUTING ∧
      (makeEscalationDecision triggers task ta da conf agents now).recommended_agent =
        some (if 4 ≤ da.domain_count ∨ ta.complexity_score > 8/10 then
                "@orchestrate-agents-adv"
              else if 2 ≤ da.domain_count ∨ (1/2 : ℚ) ≤ ta.complexity_score then
                "@orchestrate-agents"
              else "@orchestrate-tasks")) ∧
    (¬(calculateEscalationScore ta.complexity_score da conf triggers > 7/10 ∨
        triggers.enterprise_scope = true) →
      ¬(2 ≤ da.domain_count ∧ conf.total_confidence > 6/10) →
      (makeEscalationDecision triggers task ta da conf agents now).action =
        .DIRECT_AGENT_ROUTING ∧
      (da.domains = [] →
        (makeEscalationDecision triggers task ta da conf agents now).recommended_agent =
          some "@orchestrate-tasks") ∧
      (∀ d0 rest, da.domains = d0 :: rest →
        (makeEscalationDecision triggers task ta da conf agents now).recommended_agent =
          some ((d0.preferred_agents.find? (fun a => agents.contains a)).getD
            "@orchestrate-tasks"))) := by
  refine ⟨?_, ?_, ?_⟩
  · intro h
    simp only [makeEscalationDecision, if_pos h]
    simp
  · intro h1 h2 h3
    simp only [makeEscalationDecision]
    rw [if_neg h1, if_pos (And.intro h2 h3)]
    refine ⟨rfl, ?_⟩
    by_cases hheavy : 4 ≤ da.domain_count ∨ ta.complexity_score > 8/10
    · simp [determineOrchestrationType, hheavy]
    · simp [determineOrchestrationType, hheavy, h2]
  · intro h1 h2
    simp only [makeEscalationDecision]
    rw [if_neg h1, if_neg h2]
    refine ⟨rfl, ?_, ?_⟩
    · intro hnil
      simp [selectDirectAgent, hnil]
    · intro d0 rest hcons
      simp [selectDirectAgent, hcons]

/-- Witness for `make_escalation_decision_rules`, exercising each of the
three rules at concrete inputs. -/
theorem make_escalation_decision_rules_witness :
    (makeEscalationDecision triggersEnterprise [] ⟨1/2, "STANDARD"⟩ daEmpty confDictHalf
      [] 0).action = .ESCALATE_TO_ORGANIZER ∧
    (makeEscalationDecision triggersEnterprise [] ⟨1/2, "STANDARD"⟩ daEmpty confDictHalf
      [] 0).context_package ≠ none ∧
    (makeEscalationDecision triggersNone [] ⟨1/2, "STANDARD"⟩ daTwo confDictHigh
      availableAgents 0).action = .ORCHESTRATION_ROUTING ∧
    (makeEscalationDecision triggersNone [] ⟨1/2, "STANDARD"⟩ daTwo confDictHigh
      availableAgents 0).recommended_agent = some "@orchestrate-agents" ∧
    (makeEscalationDecision triggersNone [] ⟨1/2, "STANDARD"⟩ daEmpty confDictHalf
      [] 0).action = .DIRECT_AGENT_ROUTING ∧
    (makeEscalationDecision triggersNone [] ⟨1/2, "STANDARD"⟩ daEmpty confDictHalf
      [] 0).recommended_agent = some "@orchestrate-tasks" := by
  have hent : (calculateEscalationScore (1/2 : ℚ) daEmpty confDictHalf triggersEnterprise > 7/10 ∨
      triggersEnterprise.enterprise_scope = true) := Or.inr rfl
  have h1 := make_escalation_decision_rules triggersEnterprise [] ⟨1/2, "STANDARD"⟩ daEmpty
    confDictHalf [] 0
  have hno2 : ¬(calculateEscalationScore (1/2 : ℚ) daTwo confDictHigh triggersNone > 7/10 ∨
      triggersNone.enterprise_scope = true) := by
    norm_num [calculateEscalationScore, daTwo, confDictHigh, triggersNone, min_def]
  have h2 := make_escalation_decision_rules triggersNone [] ⟨1/2, "STANDARD"⟩ daTwo
    confDictHigh availableAgents 0
  have hno3 : ¬(calculateEscalationScore (1/2 : ℚ) daEmpty confDictHalf triggersNone > 7/10 ∨
      triggersNone.enterprise_scope = true) := by
    norm_num [calculateEscalationScore, daEmpty, confDictHalf, triggersNone, min_def]
  have h3 := make_escalation_decision_rules triggersNone [] ⟨1/2, "STANDARD"⟩ daEmpty
    confDictHalf [] 0
  refine ⟨(h1.1 hent).1, (h1.1 hent).2.2, ?_, ?_, ?_, ?_⟩
  · exact ((h2.2.1 hno2 (by norm_num [daTwo]) (by norm_num [confDictHigh])).1)
  · rw [(h2.2.1 hno2 (by norm_num [daTwo]) (by norm_num [confDictHigh])).2]
    norm_num [daTwo]
  · exact (h3.2.2 hno3 (by norm_num [daEmpty])).1
  · exact (h3.2.2 hno3 (by norm_num [daEmpty])).2.1 rfl

/-! ### Claim C3 -/

/-- C3: the circuit breaker's state machine. (1) From a fresh breaker,
`failure_threshold` = 5 consecutive failed calls move CLOSED → OPEN (and 4
do not); (2) in OPEN, once the recovery timeout has elapsed since the last
failure, the next call transitions the breaker to HALF_OPEN and is executed
in HALF_OPEN mode (and without the timeout the breaker stays OPEN,
short-circuiting); (3) in HALF_OPEN a single failed call moves back to
OPEN; (4) from HALF_OPEN with no successes yet and the default
`success_threshold` = 3, three consecutive successful calls close the
circuit with `failure_count` reset to 0 (and two do not). -/
theorem circuit_breaker_state_machine :
    ((cbFailStep^[5] ({} : CircuitBreaker)).state = .OPEN ∧
     (cbFailStep^[4] ({} : CircuitBreaker)).state = .CLOSED) ∧
    (∀ (cb : CircuitBreaker) (now : ℚ) (eng : ConfidenceEngine) run,
      cb.state = .OPEN → shouldAttemptReset cb now = true →
      circuitBreakerExecute cb now eng run =
        executeHalfOpen
          (transitionToHalfOpen { cb with total_requests := cb.total_requests + 1 })
          now eng run ∧
      (transitionToHalfOpen
        { cb with total_requests := cb.total_requests + 1 }).state = .HALF_OPEN) ∧
    (∀ (cb : CircuitBreaker) (now : ℚ) (eng : ConfidenceEngine) run,
      cb.state = .OPEN → shouldAttemptReset cb now = false →
      (circuitBreakerExecute cb now eng run).2.1.state = .OPEN) ∧
    (∀ (cb : CircuitBreaker) (now : ℚ) (eng : ConfidenceEngine) run err,
      cb.state = .HALF_OPEN → run eng = Except.error err →
      (circuitBreakerExecute cb now eng run).2.1.state = .OPEN) ∧
    (∀ cb : CircuitBreaker,
      cb.state = .HALF_OPEN → cb.success_count = 0 → cb.success_threshold = 3 →
      (cbOkStep (cbOkStep cb)).state = .HALF_OPEN ∧
      (cbOkStep (cbOkStep (cbOkStep cb))).state = .CLOSED ∧
      (cbOkStep (cbOkStep (cbOkStep cb))).failure_count = 0) := by
  refine ⟨⟨by decide, by decide⟩, ?_, ?_, ?_, ?_⟩
  · intro cb now eng run h hreset
    have hreset' : shouldAttemptReset
        { cb with total_requests := cb.total_requests + 1 } now = true := hreset
    constructor
    · simp only [circuitBreakerExecute]
      rw [if_pos (by simpa using h), if_pos hreset']
    · simp [transitionToHalfOpen]
  · intro cb now eng run h hreset
    obtain ⟨ft, rt, sth, fc, sc, lft, st, c2o, o2h, h2c, h2o, tr, sr, fr, coc⟩ := cb
    simp only at h
    subst h
    simp only [shouldAttemptReset] at hreset
    simp only [circuitBreakerExecute, shouldAttemptReset]
    simp [hreset]
  · intro cb now eng run err h hrun
    simp only [circuitBreakerExecute]
    rw [if_neg (by simp [h]), if_pos (by simpa using h)]
    simp [executeHalfOpen, hrun, recordHalfOpenFailure]
  · intro cb h hsc hth
    have step1 : cbOkStep cb =
        { cb with
          total_requests := cb.total_requests + 1
          success_count := cb.success_count + 1
          successful_requests := cb.successful_requests + 1 } := by
      simp only [cbOkStep, circuitBreakerExecute]
      rw [if_neg (by simp [h]), if_pos (by simpa using h)]
      simp only [executeHalfOpen, runOk, recordHalfOpenSuccess]
      rw [if_neg (by simp [hsc, hth])]
    have step2 : cbOkStep (cbOkStep cb) =
        { cb with
          total_requests := cb.total_requests + 2
          success_count := cb.success_count + 2
          successful_requests := cb.successful_requests + 2 } := by
      rw [step1]
      simp only [cbOkStep, circuitBreakerExecute]
      rw [if_neg (by simp [h]), if_pos (by simpa using h)]
      simp only [executeHalfOpen, runOk, recordHalfOpenSuccess]
      rw [if_neg (by simp [hsc, hth])]
    have step3 : cbOkStep (cbOkStep (cbOkStep cb)) =
        { cb with
          total_requests := cb.total_requests + 3
          success_count := cb.success_count + 3
          successful_requests := cb.successful_requests + 3
          state := .CLOSED
          failure_count := 0
          half_open_to_closed := cb.half_open_to_closed + 1 } := by
      rw [step2]
      simp only [cbOkStep, circuitBreakerExecute]
      rw [if_neg (by simp [h]), if_pos (by simpa using h)]
      simp only [executeHalfOpen, runOk, recordHalfOpenSuccess]
      rw [if_pos (by simp [hsc, hth])]
    refine ⟨by rw [step2]; simpa using h, by rw [step3], by rw [step3]⟩

/-- Witness for `circuit_breaker_state_machine`, exercising the OPEN-timeout
probe, the OPEN short-circuit, the HALF_OPEN failure and the HALF_OPEN
recovery at concrete states. -/
theorem circuit_breaker_state_machine_witness :
    (transitionToHalfOpen
      { cbOpen with total_requests := cbOpen.total_requests + 1 }).state = .HALF_OPEN ∧
    (circuitBreakerExecute cbOpen 10 engineFresh runOk).2.1.state = .OPEN ∧
    (circuitBreakerExecute cbHalf 0 engineFresh runFail).2.1.state = .OPEN ∧
    (cbOkStep (cbOkStep (cbOkStep cbHalf))).state = .CLOSED := by
  have h := circuit_breaker_state_machine
  refine ⟨(h.2.1 cbOpen 50 engineFresh runOk rfl ?_).2,
    h.2.2.1 cbOpen 10 engineFresh runOk rfl ?_,
    h.2.2.2.1 cbHalf 0 engineFresh runFail (.stageFailure "stage exception") rfl rfl,
    (h.2.2.2.2 cbHalf rfl rfl rfl).2.1⟩
  · simp only [shouldAttemptReset, cbOpen]
    norm_num
  · simp only [shouldAttemptReset, cbOpen]
    norm_num

/-! ### Claim C2 -/

theorem makeEscalationDecision_reason_ne (triggers : EscalationTriggers)
    (task : List Char) (ta : TaskAnalysisDict) (da : DomainAnalysisD)
    (conf : ConfidenceAnalysisDict) (agents : List String) (now : ℚ) :
    (makeEscalationDecision triggers task ta da conf agents now).reason ≠ "" := by
  simp only [makeEscalationDecision]
  split_ifs <;> dsimp only <;> decide

theorem fallbackRouting_reasoning_ne (cb : CircuitBreaker) :
    (fallbackRouting cb).reasoning ≠ "" := by
  unfold fallbackRouting
  cases h : cb.state <;> simp [h]

theorem executePipeline_ok_reasoning (st : PipelineStages) (eng : ConfidenceEngine)
    (task : List Char) (now : ℚ) (d : RoutingDecision) (eng2 : ConfidenceEngine)
    (h : executePipeline st eng task now = Except.ok (d, eng2)) : d.reasoning ≠ "" := by
  unfold executePipeline at h
  rcases hc : st.classify task with err | ta <;> rw [hc] at h
  · simp at h
  rcases hd : st.detectDomains task with err | da <;> rw [hd] at h
  · simp at h
  simp only [Except.ok.injEq, Prod.mk.injEq] at h
  rw [← h.1]
  exact makeEscalationDecision_reason_ne _ _ _ _ _ _ _

theorem circuitBreakerExecute_reasoning_ne (cb : CircuitBreaker) (now : ℚ)
    (eng : ConfidenceEngine)
    (run : ConfidenceEngine → Except PyError (RoutingDecision × ConfidenceEngine))
    (hok : ∀ d eng2, run eng = Except.ok (d, eng2) → d.reasoning ≠ "") :
    (circuitBreakerExecute cb now eng run).1.reasoning ≠ "" := by
  rcases hrun : run eng with err | p
  · simp only [circuitBreakerExecute, executeHalfOpen, hrun]
    split_ifs <;> apply fallbackRouting_reasoning_ne
  · obtain ⟨d, eng2⟩ := p
    simp only [circuitBreakerExecute, executeHalfOpen, hrun]
    split_ifs <;>
      first
        | apply fallbackRouting_reasoning_ne
        | exact hok d eng2 hrun

theorem attemptRecovery_phase2_none (task : List Char) :
    attemptRecovery "phase2_routing_failure" task = none := by
  unfold attemptRecovery
  rw [if_neg (by decide), if_neg (by decide), if_neg (by decide), if_neg (by decide)]

/-- C2: for every input text and every behaviour of the pipeline stages
(including stages that raise), `route_task` terminates and returns a
`RoutingDecision` whose `reasoning` is non-empty, on every path: validation
failure (where the `TypeError` of `_create_validation_error_decision` lands
in the recovery handler, whose unknown strategy key yields the hardcoded
emergency decision), normal pipeline completion, a stage-internal exception
absorbed by the circuit breaker, the OPEN-state fallback, and the emergency
path itself. Totality of the model is the no-unhandled-fault property. -/
theorem route_task_reasoning_nonempty (st : PipelineStages) (sys : SystemState)
    (task : List Char) (now : ℚ) :
    (routeTask st sys task now).1.reasoning ≠ "" := by
  by_cases hv : (validateTaskDescription task).1 = false
  · simp only [routeTask, hv, eq_self_iff_true, if_true, createValidationErrorDecision,
      attemptRecovery_phase2_none, getEmergencyRouting]
    decide
  · simp only [routeTask, hv, if_false]
    apply circuitBreakerExecute_reasoning_ne
    intro d eng2 hok
    exact executePipeline_ok_reasoning _ _ _ _ _ _ hok

/-- Witness for `route_task_reasoning_nonempty` at a concrete input and
concrete stages. -/
theorem route_task_reasoning_nonempty_witness :
    (routeTask stagesTrivial sysFresh ['d'] 0).1.reasoning ≠ "" :=
  route_task_reasoning_nonempty stagesTrivial sysFresh ['d'] 0

/-! ### Claim C9 -/

/-- C9 (code_bug evaluation): `route_task("")` does not return the intended
validation-error decision with confidence 0.1: `_create_validation_error_decision`
raises `TypeError` (it passes `escalation_score` / `escalation_triggers`
keywords the `RoutingDecision` dataclass does not declare), the recovery
handler finds no `'phase2_routing_failure'` strategy, and the hardcoded
emergency decision is returned instead — still an ESCALATE, but with
confidence 0.5, contradicting the claim (and the repository's own test,
which asserts `decision.confidence < 0.5` for empty input). -/
theorem empty_input_routes_to_emergency :
    (routeTask stagesTrivial sysFresh [] 0).1 = getEmergencyRouting [] ∧
    (routeTask stagesTrivial sysFresh [] 0).1.action = .enumV .ESCALATE ∧
    (routeTask stagesTrivial sysFresh [] 0).1.confidence = 1/2 ∧
    ¬(routeTask stagesTrivial sysFresh [] 0).1.confidence = 1/10 := by
  have h1 : routeTask stagesTrivial sysFresh [] 0 = (getEmergencyRouting [], sysFresh) := by
    unfold routeTask
    rw [if_pos (by decide)]
    simp only [createValidationErrorDecision, attemptRecovery_phase2_none]
  rw [h1]
  refine ⟨rfl, rfl, rfl, ?_⟩
  norm_num [getEmergencyRouting]

/-! ### Claim C6 -/

/-- C6 (code_bug evaluation): repeating the same confidence-scoring pipeline
call makes the second call identical in confidence and served from the cache
(the engine's cache-hit counter becomes 1), but the returned decision
reports `cache_hit = false`, not `true`: the pipeline computes the flag as
`hasattr(confidence_analysis, 'cache_hit') and ...`, and `ConfidenceComponents`
never carries that attribute. -/
theorem repeated_call_reports_cache_hit_false :
    (pipelineDecision (executePipeline stagesC6 c6Engine1 [] 0)).map
        RoutingDecision.confidence =
      (pipelineDecision (executePipeline stagesC6 engineFresh [] 0)).map
        RoutingDecision.confidence ∧
    (pipelineEngine (executePipeline stagesC6 c6Engine1 [] 0)).map
      (fun e => e.performance_stats.cache_hits) = some 1 ∧
    (pipelineDecision (executePipeline stagesC6 c6Engine1 [] 0)).map
      RoutingDecision.cache_hit = some false := by
  norm_num [pipelineDecision, pipelineEngine, c6Engine1, executePipeline, stagesC6,
    calculateRoutingConfidence, computeConfidenceComponents, cacheGet, cachePut,
    tierGet, tierPut, alistFind, alistAssign, alistRemove, evictToCapacity,
    generateKey, daHigh, engineFresh, calculatePatternConfidence,
    calculateHistoricalConfidence, calculateContextConfidence,
    calculateResourceConfidence, estimateTokens, taskSignature, splitWords,
    splitWordsAux, lowerChars, confidenceComponentsHasCacheHitAttr,
    Except.toOption, min_def]

end AgentSelect

